import Mathlib

/-!
Shallow embedding of the speech-processing orchestration layer of
`python_service/services/speech_service.py` (class `SpeechService`).

Modelling conventions:
- The two model handles (`whisper_model`, `kokoro_pipeline`) are opaque in the
  source; only their presence matters, so they are `Option Unit`.
- Python exceptions are modelled by `Except`/`Option Err` return values; the
  external collaborators (Whisper inference, the Kokoro generator, the disk
  write into the staging file, `librosa.effects.time_stretch`, the
  `soundfile` WAV encoder, `np.exp`) are oracles passed in as parameters.
- Audio samples are `ℚ` (the source uses float32 arrays; the claims are about
  structural sample manipulation, not rounding), encoded bytes are `List ℕ`.
- Side effects the claims talk about (creation/removal of the staging file,
  whether inference was attempted, which models were loaded) are returned
  explicitly as effect records alongside the result.
-/

/-- State of the `SpeechService` object: `self.whisper_model`,
`self.kokoro_pipeline`, `self._initialized`. -/
structure SpeechState where
  whisper_model : Option Unit
  kokoro_pipeline : Option Unit
  initialized : Bool
deriving DecidableEq

/-- One Whisper segment as consumed by `_calculate_confidence`:
`seg.get("avg_logprob", 0.0)` reads an optional float. -/
structure Segment where
  avg_logprob : Option ℚ
deriving DecidableEq

/-- The dictionary returned by `whisper_model.transcribe`: `text` is always
present, `language` / `duration` / `segments` are read with defaults. -/
structure WhisperResult where
  text : String
  language : Option String
  duration : Option ℚ
  segments : Option (List Segment)
deriving DecidableEq

/-- The dictionary built by `transcribe_audio` on success. -/
structure TranscriptionResult where
  text : String
  language : String
  confidence : ℚ
  duration : ℚ
deriving DecidableEq

/-- The dictionary returned by `get_health_status`. -/
structure HealthStatus where
  whisper : Bool
  kokoro : Bool
  initialized : Bool
deriving DecidableEq

/-- The `RuntimeError`s raised by the service methods. -/
inductive Err
  | initFailed
  | whisperNotInitialized
  | kokoroNotInitialized
  | transcriptionFailed
  | synthesisFailed
deriving DecidableEq

/-- `get_health_status`: presence of each handle plus the `_initialized`
flag, recomputed from the state on every call. -/
def get_health_status (s : SpeechState) : HealthStatus :=
  { whisper := s.whisper_model.isSome
    kokoro := s.kokoro_pipeline.isSome
    initialized := s.initialized }

/-- `_calculate_confidence`: if `"segments"` is present and the list is
non-empty, average `seg.get("avg_logprob", 0.0)` over the segments and return
`max(0.0, min(1.0, np.exp(avg_logprob)))`; otherwise return `0.8`.
`expf` is the `np.exp` oracle. -/
def calculate_confidence (expf : ℚ → ℚ) (result : WhisperResult) : ℚ :=
  match result.segments with
  | some segments =>
    if segments.isEmpty then (8 : ℚ) / 10
    else
      let probs := segments.map (fun seg => seg.avg_logprob.getD 0)
      if probs.isEmpty then (8 : ℚ) / 10
      else
        let avg_logprob := probs.sum / (probs.length : ℚ)
        max 0 (min 1 (expf avg_logprob))
  | none => (8 : ℚ) / 10

/-- Whether `temp_file.write(audio_data)` inside the `with` block succeeds or
raises (e.g. a full disk). -/
inductive WriteOutcome
  | ok
  | fail
deriving DecidableEq

/-- Observable side effects of one `transcribe_audio` call: whether the
`NamedTemporaryFile(delete=False)` staging file was created, whether Whisper
inference was scheduled, and whether the staging file still exists on disk
when the call returns or raises. -/
structure TranscribeEffects where
  fileCreated : Bool
  inferenceAttempted : Bool
  fileRemains : Bool
deriving DecidableEq

/-- `transcribe_audio`: guard on `_initialized`/`whisper_model`, write the
audio bytes to a `NamedTemporaryFile(suffix=".wav", delete=False)`, run
`_transcribe_sync` through the executor, build the result dict, and unlink
the staging file in the inner `finally`. A failure of the write itself
happens before the inner `try`, so no unlink runs on that path; the outer
`except` rewraps every failure as `RuntimeError("Transcription failed: ...")`.
`infer` is the Whisper inference oracle. -/
def transcribe_audio (expf : ℚ → ℚ) (s : SpeechState)
    (write : WriteOutcome) (infer : Except Unit WhisperResult) :
    Except Err TranscriptionResult × TranscribeEffects × SpeechState :=
  if s.initialized = false ∨ s.whisper_model = none then
    (Except.error Err.whisperNotInitialized,
     { fileCreated := false, inferenceAttempted := false, fileRemains := false }, s)
  else
    match write with
    | WriteOutcome.fail =>
        (Except.error Err.transcriptionFailed,
         { fileCreated := true, inferenceAttempted := false, fileRemains := true }, s)
    | WriteOutcome.ok =>
        match infer with
        | Except.error _ =>
            (Except.error Err.transcriptionFailed,
             { fileCreated := true, inferenceAttempted := true, fileRemains := false }, s)
        | Except.ok result =>
            (Except.ok
              { text := result.text.trim
                language := result.language.getD "unknown"
                confidence := calculate_confidence expf result
                duration := result.duration.getD 0 },
             { fileCreated := true, inferenceAttempted := true, fileRemains := false }, s)

/-- Which model loads `initializeModels` actually attempted
(`whisper.load_model("turbo")`, `KPipeline(lang_code='a')`). -/
inductive LoadEvent
  | whisper
  | kokoro
deriving DecidableEq

/-- `initialize`: return immediately if `_initialized`; otherwise load the
Whisper model, then the Kokoro pipeline, re-raising either failure, and set
`_initialized = True` only after both loads succeed. Returns the new state,
the raised error if any, and the loads attempted. `loadW`/`loadK` are the
load oracles for the two engines. -/
def initializeModels (loadW loadK : Except Unit Unit) (s : SpeechState) :
    SpeechState × Option Err × List LoadEvent :=
  if s.initialized then (s, none, [])
  else
    match loadW with
    | Except.error _ => (s, some Err.initFailed, [LoadEvent.whisper])
    | Except.ok _ =>
      let s1 : SpeechState := { s with whisper_model := some () }
      match loadK with
      | Except.error _ => (s1, some Err.initFailed, [LoadEvent.whisper, LoadEvent.kokoro])
      | Except.ok _ =>
        ({ s1 with kokoro_pipeline := some (), initialized := true }, none,
         [LoadEvent.whisper, LoadEvent.kokoro])

/-- `cleanup`: drop each handle that is present, reset `_initialized` to
`False`. (The CUDA cache clearing touches no service state and cannot raise
here; none of the statements in the method can.) -/
def cleanup (s : SpeechState) : SpeechState :=
  let s1 := if s.whisper_model.isSome then { s with whisper_model := none } else s
  let s2 := if s1.kokoro_pipeline.isSome then { s1 with kokoro_pipeline := none } else s1
  { s2 with initialized := false }

/-- Python `int()` on a rational: truncation toward zero. -/
def pyInt (q : ℚ) : ℤ :=
  if 0 ≤ q then ⌊q⌋ else -⌊-q⌋

/-- Strided selection with a skip counter: at `0` keep the head and reset
the counter to `step - 1`, otherwise skip and count down. -/
def sliceAux (step : ℕ) : List ℚ → ℕ → List ℚ
  | [], _ => []
  | x :: xs, 0 => x :: sliceAux step xs (step - 1)
  | _ :: xs, c + 1 => sliceAux step xs c

/-- NumPy slice `audio[::step]` for `step ≥ 1`: the elements at indices
`0, step, 2*step, ...` in order. -/
def sliceStep (l : List ℚ) (step : ℕ) : List ℚ :=
  sliceAux step l 0

/-- `_synthesize_sync`: drain the Kokoro generator (the drained segment list
is the `audio_segments` parameter), concatenate the segments, or return one
second of silence (`np.zeros(24000)`) if no audio was generated. -/
def synthesize_sync (audio_segments : List (List ℚ)) : List ℚ :=
  if audio_segments.isEmpty then List.replicate 24000 0
  else audio_segments.flatten

/-- `_adjust_speed`: identity at `speed == 1.0`; otherwise
`librosa.effects.time_stretch` when importable (the `librosa` oracle is
`some time_stretch`), else the naive fallback: `audio[::int(speed)]` for
`speed > 1.0`, `np.repeat(audio, int(1.0 / speed))` otherwise. -/
def adjust_speed (librosa : Option (List ℚ → ℚ → List ℚ))
    (audio : List ℚ) (speed : ℚ) : List ℚ :=
  if speed = 1 then audio
  else
    match librosa with
    | some time_stretch => time_stretch audio speed
    | none =>
      if 1 < speed then
        sliceStep audio (pyInt speed).toNat
      else
        (audio.map (fun x => List.replicate (pyInt (1 / speed)).toNat x)).flatten

/-- External collaborators of the synthesis pipeline: the optional
`librosa.effects.time_stretch` import and the `soundfile` WAV encoder used
by `_audio_to_wav_bytes`. -/
structure SynthEnv where
  librosa : Option (List ℚ → ℚ → List ℚ)
  encode : List ℚ → List ℕ

/-- `_audio_to_wav_bytes`: encode the waveform to WAV container bytes via
the `soundfile` writer (an external collaborator, the `encode` oracle). -/
def audio_to_wav_bytes (encode : List ℚ → List ℕ) (audio : List ℚ) : List ℕ :=
  encode audio

/-- `synthesize_speech`: guard on `_initialized`/`kokoro_pipeline`, run
`_synthesize_sync` through the executor (`engine` is its oracle: the drained
segment list, or the exception the drain raised), apply `_adjust_speed` only
when `speed != 1.0`, and encode with `_audio_to_wav_bytes` at 24000 Hz.
Failures are rewrapped as `RuntimeError("Speech synthesis failed: ...")`.
Returns the bytes or the error, whether engine inference was attempted, and
the (unchanged) state. -/
def synthesize_speech (env : SynthEnv) (s : SpeechState)
    (engine : Except Unit (List (List ℚ))) (speed : ℚ) :
    Except Err (List ℕ) × Bool × SpeechState :=
  if s.initialized = false ∨ s.kokoro_pipeline = none then
    (Except.error Err.kokoroNotInitialized, false, s)
  else
    match engine with
    | Except.error _ => (Except.error Err.synthesisFailed, true, s)
    | Except.ok segs =>
        let audio_data := synthesize_sync segs
        let adjusted := if speed ≠ 1 then adjust_speed env.librosa audio_data speed
                        else audio_data
        (Except.ok (audio_to_wav_bytes env.encode adjusted), true, s)

/-- A fully initialized service state (both models loaded). -/
def readyState : SpeechState :=
  { whisper_model := some (), kokoro_pipeline := some (), initialized := true }

/-- If every segment's `avg_logprob` is `some`, the defaulted read
`seg.get("avg_logprob", 0.0)` recovers exactly the underlying values. -/
theorem map_getD_of_map_some (segs : List Segment) (ls : List ℚ)
    (h : segs.map Segment.avg_logprob = ls.map some) :
    segs.map (fun seg => seg.avg_logprob.getD 0) = ls := by
  induction segs generalizing ls with
  | nil =>
    cases ls with
    | nil => rfl
    | cons a as => simp at h
  | cons x xs ih =>
    cases ls with
    | nil => simp at h
    | cons a as =>
      simp only [List.map_cons, List.cons.injEq] at h
      simp only [List.map_cons, h.1, Option.getD_some, List.cons.injEq]
      exact ⟨trivial, ih as h.2⟩

/-- C2: confidence derivation. With per-segment log-probabilities present,
the confidence is `clamp(exp(mean(avg_logprob)), 0, 1)`; with no segments it
is exactly `0.8`; and in every case it lies in `[0, 1]`. -/
theorem confidence_spec (expf : ℚ → ℚ) (r : WhisperResult) :
    (∀ segs ls, r.segments = some segs → ls ≠ [] →
        segs.map Segment.avg_logprob = ls.map some →
        calculate_confidence expf r
          = max 0 (min 1 (expf (ls.sum / (ls.length : ℚ))))) ∧
    (r.segments = none ∨ r.segments = some [] →
        calculate_confidence expf r = 8 / 10) ∧
    (0 ≤ calculate_confidence expf r ∧ calculate_confidence expf r ≤ 1) := by
  refine ⟨?_, ?_, ?_⟩
  · intro segs ls hseg hls hmap
    have hlen : segs.length = ls.length := by
      have h2 := congrArg List.length hmap
      simpa using h2
    have hsegs : segs ≠ [] := by
      intro h0
      apply hls
      rw [h0] at hlen
      exact List.length_eq_zero.mp hlen.symm
    have hprobs : segs.map (fun seg => seg.avg_logprob.getD 0) = ls :=
      map_getD_of_map_some segs ls hmap
    simp [calculate_confidence, hseg, List.isEmpty_iff, hsegs, hprobs, hls]
  · rintro (h | h) <;> simp [calculate_confidence, h]
  · have hcl : ∀ e : ℚ, 0 ≤ max 0 (min 1 e) ∧ max 0 (min 1 e) ≤ 1 := by
      intro e
      exact ⟨le_max_left 0 _, max_le (by norm_num) (min_le_left 1 e)⟩
    unfold calculate_confidence
    rcases r.segments with _ | segs
    · norm_num
    · dsimp only
      split
      · norm_num
      · split
        · norm_num
        · exact hcl _

/-- C2 witness: two segments with log-probabilities `-2` and `0` under the
exponential oracle `fun q => 1 + q` give `clamp((1 + (-1)), 0, 1) = 0`. -/
theorem confidence_spec_witness :
    calculate_confidence (fun q => 1 + q)
      { text := "", language := none, duration := none,
        segments := some [{ avg_logprob := some (-2) }, { avg_logprob := some 0 }] } = 0 := by
  have h := (confidence_spec (fun q => 1 + q)
      { text := "", language := none, duration := none,
        segments := some [{ avg_logprob := some (-2) }, { avg_logprob := some 0 }] }).1
    [{ avg_logprob := some (-2) }, { avg_logprob := some 0 }] [-2, 0] rfl (by decide) rfl
  rw [h]
  norm_num

/-- C10: a segment lacking `avg_logprob` contributes the default `0.0`; if
every segment lacks it the mean is `0`, so the confidence is
`clamp(exp(0), 0, 1) = 1`, not the `0.8` no-segments fallback. -/
theorem confidence_all_defaults (expf : ℚ → ℚ) (r : WhisperResult)
    (segs : List Segment) (hexp : expf 0 = 1) (hseg : r.segments = some segs)
    (hne : segs ≠ []) (hnone : ∀ seg ∈ segs, seg.avg_logprob = none) :
    calculate_confidence expf r = 1 := by
  have hsum : (segs.map (fun seg => seg.avg_logprob.getD 0)).sum = 0 := by
    apply List.sum_eq_zero
    intro x hx
    simp only [List.mem_map] at hx
    obtain ⟨seg, hsegmem, hx⟩ := hx
    rw [← hx, hnone seg hsegmem]
    rfl
  have hmapne : segs.map (fun seg => seg.avg_logprob.getD 0) ≠ [] := by
    simpa using hne
  simp only [calculate_confidence, hseg, List.isEmpty_iff, hne, if_neg hne, hmapne,
    if_neg hmapne, hsum, zero_div, hexp]
  norm_num

/-- C10 witness: one segment with no `avg_logprob` under an oracle with
`exp 0 = 1` yields confidence `1`. -/
theorem confidence_all_defaults_witness :
    calculate_confidence (fun q => 1 + q)
      { text := "", language := none, duration := none,
        segments := some [{ avg_logprob := none }] } = 1 :=
  confidence_all_defaults (fun q => 1 + q) _ [{ avg_logprob := none }]
    (by norm_num) rfl (by decide) (by decide)

/-- C8: `cleanup` is total in every state (the method body cannot raise): it
clears both handles and resets the flag, so the resulting health status has
`initialized = false` and both handles absent. -/
theorem cleanup_safe (s : SpeechState) :
    cleanup s = { whisper_model := none, kokoro_pipeline := none, initialized := false } ∧
    (get_health_status (cleanup s)).initialized = false ∧
    (cleanup s).whisper_model = none ∧ (cleanup s).kokoro_pipeline = none := by
  have h : cleanup s
      = { whisper_model := none, kokoro_pipeline := none, initialized := false } := by
    rcases s with ⟨w, k, i⟩
    cases w <;> cases k <;> rfl
  exact ⟨h, by rw [h]; rfl, by rw [h], by rw [h]⟩

/-- C7: `initialize` is idempotent. On an already-initialized state it
returns immediately with no loads and no error; and whenever a call returns
without error, an immediately following call changes nothing, loads nothing,
raises nothing, and leaves the observable health status identical. -/
theorem initialize_idempotent (lw lk lw2 lk2 : Except Unit Unit) (s : SpeechState) :
    (s.initialized = true → initializeModels lw lk s = (s, none, [])) ∧
    ((initializeModels lw lk s).2.1 = none →
      initializeModels lw2 lk2 (initializeModels lw lk s).1
        = ((initializeModels lw lk s).1, none, []) ∧
      get_health_status (initializeModels lw2 lk2 (initializeModels lw lk s).1).1
        = get_health_status (initializeModels lw lk s).1) := by
  constructor
  · intro h
    simp [initializeModels, h]
  · intro hok
    unfold initializeModels at hok ⊢
    rcases hsi : s.initialized with _ | _ <;>
      rcases lw with _ | _ <;> rcases lk with _ | _ <;>
        simp_all
/-- C7 witness: a successful first call from the fresh state, then a second
call: the second call is the identity with no loads. -/
theorem initialize_idempotent_witness :
    (initializeModels (Except.ok ()) (Except.ok ())
        { whisper_model := none, kokoro_pipeline := none, initialized := false }).2.1 = none ∧
    initializeModels (Except.error ()) (Except.error ())
        (initializeModels (Except.ok ()) (Except.ok ())
          { whisper_model := none, kokoro_pipeline := none, initialized := false }).1
      = ((initializeModels (Except.ok ()) (Except.ok ())
          { whisper_model := none, kokoro_pipeline := none, initialized := false }).1,
         none, []) :=
  ⟨rfl,
   ((initialize_idempotent (Except.ok ()) (Except.ok ()) (Except.error ()) (Except.error ())
      { whisper_model := none, kokoro_pipeline := none, initialized := false }).2 rfl).1⟩

/-- C4: partial initialization failure (Whisper loads, Kokoro's load
throws): `initialize` reports the error, the `initialized` flag stays
`false`, and every subsequent `transcribe_audio` / `synthesize_speech` call
fails up front — no staging file, no inference, no state change — even
though the Whisper handle was assigned. -/
theorem partial_init_unusable (s : SpeechState) (hs : s.initialized = false)
    (expf : ℚ → ℚ) (writeo : WriteOutcome) (infer : Except Unit WhisperResult)
    (env : SynthEnv) (engine : Except Unit (List (List ℚ))) (speed : ℚ) :
    (initializeModels (Except.ok ()) (Except.error ()) s).2.1 = some Err.initFailed ∧
    (initializeModels (Except.ok ()) (Except.error ()) s).1.initialized = false ∧
    transcribe_audio expf (initializeModels (Except.ok ()) (Except.error ()) s).1 writeo infer
      = (Except.error Err.whisperNotInitialized,
         { fileCreated := false, inferenceAttempted := false, fileRemains := false },
         (initializeModels (Except.ok ()) (Except.error ()) s).1) ∧
    synthesize_speech env (initializeModels (Except.ok ()) (Except.error ()) s).1 engine speed
      = (Except.error Err.kokoroNotInitialized, false,
         (initializeModels (Except.ok ()) (Except.error ()) s).1) := by
  have hstate : (initializeModels (Except.ok ()) (Except.error ()) s).1
      = { s with whisper_model := some () } := by
    simp [initializeModels, hs]
  refine ⟨by simp [initializeModels, hs], by rw [hstate]; exact hs, ?_, ?_⟩
  · rw [hstate]
    unfold transcribe_audio
    rw [if_pos (Or.inl hs)]
  · rw [hstate]
    unfold synthesize_speech
    rw [if_pos (Or.inl hs)]

/-- C4 witness: from the fresh state, Whisper-ok / Kokoro-fail leaves the
flag down and a transcription attempt fails immediately. -/
theorem partial_init_unusable_witness :
    ({ whisper_model := none, kokoro_pipeline := none, initialized := false }
        : SpeechState).initialized = false ∧
    (transcribe_audio (fun q => q)
        (initializeModels (Except.ok ()) (Except.error ())
          { whisper_model := none, kokoro_pipeline := none, initialized := false }).1
        WriteOutcome.ok (Except.error ())).1
      = Except.error Err.whisperNotInitialized := by
  refine ⟨rfl, ?_⟩
  have h := (partial_init_unusable
      { whisper_model := none, kokoro_pipeline := none, initialized := false } rfl
      (fun q => q) WriteOutcome.ok (Except.error ())
      { librosa := none, encode := fun _ => [] } (Except.ok []) 1).2.2.1
  rw [h]

/-- C9: calling `transcribe_audio` or `synthesize_speech` with the
`initialized` flag down or the corresponding handle absent raises at the
guard: no staging file is created, no inference is attempted, and the state
is returned unchanged. -/
theorem preinit_guard (s : SpeechState) (expf : ℚ → ℚ) (writeo : WriteOutcome)
    (infer : Except Unit WhisperResult) (env : SynthEnv)
    (engine : Except Unit (List (List ℚ))) (speed : ℚ) :
    (s.initialized = false ∨ s.whisper_model = none →
      transcribe_audio expf s writeo infer
        = (Except.error Err.whisperNotInitialized,
           { fileCreated := false, inferenceAttempted := false, fileRemains := false }, s)) ∧
    (s.initialized = false ∨ s.kokoro_pipeline = none →
      synthesize_speech env s engine speed
        = (Except.error Err.kokoroNotInitialized, false, s)) := by
  constructor
  · intro h
    unfold transcribe_audio
    rw [if_pos h]
  · intro h
    unfold synthesize_speech
    rw [if_pos h]

/-- C9 witness: a state with both handles present but the flag down still
fails both calls at the guard with no effects. -/
theorem preinit_guard_witness :
    (({ whisper_model := some (), kokoro_pipeline := some (), initialized := false }
        : SpeechState).initialized = false ∨
      ({ whisper_model := some (), kokoro_pipeline := some (), initialized := false }
        : SpeechState).whisper_model = none) ∧
    transcribe_audio (fun q => q)
        { whisper_model := some (), kokoro_pipeline := some (), initialized := false }
        WriteOutcome.ok (Except.error ())
      = (Except.error Err.whisperNotInitialized,
         { fileCreated := false, inferenceAttempted := false, fileRemains := false },
         { whisper_model := some (), kokoro_pipeline := some (), initialized := false }) :=
  ⟨Or.inl rfl,
   (preinit_guard { whisper_model := some (), kokoro_pipeline := some (), initialized := false }
      (fun q => q) WriteOutcome.ok (Except.error ())
      { librosa := none, encode := fun _ => [] } (Except.ok []) 1).1 (Or.inl rfl)⟩

/-- `pyInt` agrees with the floor on non-negative arguments. -/
theorem pyInt_eq_floor (q : ℚ) (h : 0 ≤ q) : pyInt q = ⌊q⌋ := by
  simp [pyInt, h]

/-- Element characterization of the strided selection: for `step ≥ 1`,
`sliceAux` starting with skip counter `c` picks the elements at indices
`c, c + step, c + 2 * step, ...`. -/
theorem sliceAux_getElem (step : ℕ) (hstep : 1 ≤ step) (l : List ℚ) :
    ∀ c i : ℕ, (sliceAux step l c)[i]? = l[c + step * i]? := by
  induction l with
  | nil => intro c i; simp [sliceAux]
  | cons x xs ih =>
    intro c i
    match c with
    | 0 =>
      match i with
      | 0 => simp [sliceAux]
      | i + 1 =>
        show (x :: sliceAux step xs (step - 1))[i + 1]? = (x :: xs)[0 + step * (i + 1)]?
        rw [List.getElem?_cons_succ, ih (step - 1) i]
        have h1 : 0 + step * (i + 1) = ((step - 1) + step * i) + 1 := by
          cases step with
          | zero => omega
          | succ n => ring_nf; omega
        rw [h1, List.getElem?_cons_succ]
    | c + 1 =>
      show (sliceAux step xs c)[i]? = (x :: xs)[(c + 1) + step * i]?
      rw [ih c i]
      have h1 : (c + 1) + step * i = (c + step * i) + 1 := by omega
      rw [h1, List.getElem?_cons_succ]

/-- `audio[::step]` keeps exactly the samples at the multiples of `step`. -/
theorem sliceStep_getElem (l : List ℚ) (step : ℕ) (h : 1 ≤ step) (i : ℕ) :
    (sliceStep l step)[i]? = l[step * i]? := by
  have h0 := sliceAux_getElem step h l 0 i
  simpa [sliceStep] using h0

/-- C5: the naive-resampling fallback when `librosa` is unavailable. For
`speed > 1.0` it is `audio[::floor(speed)]`, i.e. the output's `i`-th sample
is the input's `floor(speed) * i`-th; for `0 < speed < 1.0` it repeats each
sample `floor(1 / speed)` times. -/
theorem speed_fallback (audio : List ℚ) (speed : ℚ) :
    (1 < speed →
      adjust_speed none audio speed = sliceStep audio (⌊speed⌋).toNat ∧
      ∀ i : ℕ, (adjust_speed none audio speed)[i]? = audio[(⌊speed⌋).toNat * i]?) ∧
    (0 < speed → speed < 1 →
      adjust_speed none audio speed
        = (audio.map (fun x => List.replicate (⌊1 / speed⌋).toNat x)).flatten) := by
  constructor
  · intro h
    have hne : speed ≠ 1 := by
      intro h1
      rw [h1] at h
      exact lt_irrefl 1 h
    have hpy : pyInt speed = ⌊speed⌋ :=
      pyInt_eq_floor speed (le_of_lt (lt_trans zero_lt_one h))
    have heq : adjust_speed none audio speed = sliceStep audio (⌊speed⌋).toNat := by
      simp [adjust_speed, hne, h, hpy]
    have hfl : (1 : ℤ) ≤ ⌊speed⌋ := by
      rw [Int.le_floor]
      exact_mod_cast le_of_lt h
    refine ⟨heq, fun i => ?_⟩
    rw [heq]
    exact sliceStep_getElem audio _ (by omega) i
  · intro h0 h1
    have hne : speed ≠ 1 := ne_of_lt h1
    have hnot : ¬ (1 < speed) := not_lt.mpr (le_of_lt h1)
    have hpy : pyInt speed⁻¹ = ⌊speed⁻¹⌋ :=
      pyInt_eq_floor _ (le_of_lt (by positivity))
    simp [adjust_speed, hne, hnot, one_div, hpy]

/-- C5 witness: `speed = 3/2` keeps every `floor(3/2) = 1`-st sample (all of
them); `speed = 1/2` repeats each sample `floor(2) = 2` times. -/
theorem speed_fallback_witness :
    ((1 : ℚ) < 3 / 2 ∧
      adjust_speed none [1, 2, 3, 4, 5] (3 / 2) = [1, 2, 3, 4, 5]) ∧
    ((0 : ℚ) < 1 / 2 ∧ (1 / 2 : ℚ) < 1 ∧
      adjust_speed none [1, 2] (1 / 2) = [1, 1, 2, 2]) := by
  have hf1 : ⌊(3 / 2 : ℚ)⌋ = 1 := by
    rw [Int.floor_eq_iff]
    constructor <;> norm_num
  have hf2 : ⌊(1 / (1 / 2) : ℚ)⌋ = 2 := by
    rw [Int.floor_eq_iff]
    constructor <;> norm_num
  refine ⟨⟨by norm_num, ?_⟩, ⟨by norm_num, by norm_num, ?_⟩⟩
  · have h := ((speed_fallback [1, 2, 3, 4, 5] (3 / 2)).1 (by norm_num)).1
    rw [h, hf1]
    decide
  · have h := (speed_fallback [1, 2] (1 / 2)).2 (by norm_num) (by norm_num)
    rw [h, hf2]
    decide

/-- C6: at `speed = 1.0` no speed adjustment is applied — `_adjust_speed`
is the identity, and `synthesize_speech` encodes exactly the waveform
produced by `_synthesize_sync`. -/
theorem speed_one_identity (env : SynthEnv) (s : SpeechState) (segs : List (List ℚ))
    (h1 : s.initialized = true) (h2 : s.kokoro_pipeline ≠ none) :
    adjust_speed env.librosa (synthesize_sync segs) 1 = synthesize_sync segs ∧
    synthesize_speech env s (Except.ok segs) 1
      = (Except.ok (audio_to_wav_bytes env.encode (synthesize_sync segs)), true, s) := by
  refine ⟨by simp [adjust_speed], ?_⟩
  unfold synthesize_speech
  rw [if_neg (by simp [h1, h2])]
  simp

/-- C6 witness: segments `[[1,2],[3]]` at `speed = 1` are concatenated and
encoded unchanged (here the encoder reports the sample count, `3`). -/
theorem speed_one_identity_witness :
    readyState.initialized = true ∧ readyState.kokoro_pipeline ≠ none ∧
    synthesize_speech { librosa := none, encode := fun xs => [xs.length] } readyState
        (Except.ok [[1, 2], [3]]) 1
      = (Except.ok [3], true, readyState) := by
  refine ⟨rfl, by decide, ?_⟩
  have h := (speed_one_identity { librosa := none, encode := fun xs => [xs.length] }
      readyState [[1, 2], [3]] rfl (by decide)).2
  rw [h]
  rfl

/-- Halving a run of `2 * n` equal samples with stride `2` keeps `n` of
them. -/
theorem sliceStep_two_replicate (n : ℕ) (x : ℚ) :
    sliceStep (List.replicate (2 * n) x) 2 = List.replicate n x := by
  induction n with
  | zero => rfl
  | succ n ih =>
    have h2 : 2 * (n + 1) = 2 * n + 1 + 1 := by ring
    rw [h2, List.replicate_succ, List.replicate_succ, List.replicate_succ]
    show x :: sliceStep (List.replicate (2 * n) x) 2 = x :: List.replicate n x
    exact congrArg (List.cons x) ih

/-- C3 counterexample: with the engine yielding zero segments but
`speed = 2.0` (a valid `SynthesisParameters` speed) and the naive fallback
active, the substituted second of silence is speed-adjusted down to 12000
samples before encoding, so the output is not the encoding of the 24000
zero samples (the encoder here reports the sample count). -/
theorem silence_claim_counterexample :
    (synthesize_speech { librosa := none, encode := fun xs => [xs.length] } readyState
        (Except.ok []) 2).1
      ≠ Except.ok ((fun xs : List ℚ => [xs.length]) (List.replicate 24000 0)) := by
  have hpy : (pyInt 2).toNat = 2 := by
    have h : ⌊(2 : ℚ)⌋ = 2 := by
      rw [Int.floor_eq_iff]
      constructor <;> norm_num
    rw [pyInt_eq_floor 2 (by norm_num), h]
    rfl
  have hadj : adjust_speed none (synthesize_sync []) 2 = List.replicate 12000 0 := by
    have h24 : synthesize_sync [] = List.replicate 24000 (0 : ℚ) := rfl
    have hif : adjust_speed none (List.replicate 24000 (0 : ℚ)) 2
        = sliceStep (List.replicate 24000 (0 : ℚ)) (pyInt 2).toNat := by
      unfold adjust_speed
      rw [if_neg (by norm_num : ¬ ((2 : ℚ) = 1))]
      rw [if_pos (by norm_num : (1 : ℚ) < 2)]
    rw [h24, hif, hpy, show (24000 : ℕ) = 2 * 12000 from by norm_num,
      sliceStep_two_replicate]
  have hcalc : (synthesize_speech { librosa := none, encode := fun xs => [xs.length] }
      readyState (Except.ok []) 2).1 = Except.ok [12000] := by
    show (Except.ok ((fun xs : List ℚ => [xs.length])
        (if (2 : ℚ) ≠ 1 then adjust_speed none (synthesize_sync []) 2
         else synthesize_sync [])) : Except Err (List ℕ))
      = Except.ok [12000]
    rw [if_pos (by norm_num), hadj]
    show (Except.ok [(List.replicate 12000 (0 : ℚ)).length] : Except Err (List ℕ))
      = Except.ok [12000]
    rw [List.length_replicate]
  rw [hcalc]
  show (Except.ok [12000] : Except Err (List ℕ))
    ≠ Except.ok [(List.replicate 24000 (0 : ℚ)).length]
  rw [List.length_replicate]
  intro hcontra
  simp only [Except.ok.injEq, List.cons.injEq] at hcontra
  omega

/-- C3 amended: if the engine yields zero segments and `speed = 1.0`, the
output is exactly the encoding of one second of silence at 24000 Hz (24000
zero samples); and for any speed, granted the container encoder never emits
zero bytes, the returned bytes are non-empty. -/
theorem silence_amended (env : SynthEnv) (s : SpeechState)
    (h1 : s.initialized = true) (h2 : s.kokoro_pipeline ≠ none)
    (henc : ∀ xs, env.encode xs ≠ []) :
    (synthesize_speech env s (Except.ok []) 1).1
      = Except.ok (env.encode (List.replicate 24000 0)) ∧
    ∀ (speed : ℚ) (bytes : List ℕ),
      (synthesize_speech env s (Except.ok []) speed).1 = Except.ok bytes → bytes ≠ [] := by
  have hguard : ¬ (s.initialized = false ∨ s.kokoro_pipeline = none) := by
    simp [h1, h2]
  constructor
  · unfold synthesize_speech
    rw [if_neg hguard]
    show (Except.ok (audio_to_wav_bytes env.encode
        (if (1 : ℚ) ≠ 1 then adjust_speed env.librosa (synthesize_sync []) 1
         else synthesize_sync [])) : Except Err (List ℕ))
      = Except.ok (env.encode (List.replicate 24000 0))
    rw [if_neg (by simp)]
    rfl
  · intro speed bytes hb
    unfold synthesize_speech at hb
    rw [if_neg hguard] at hb
    simp only [audio_to_wav_bytes, Except.ok.injEq] at hb
    rw [← hb]
    apply henc
/-- C3 amended witness: zero segments at `speed = 1` with a ready service
and a length-reporting (hence never-empty) encoder yield the encoding of
the 24000 zero samples. -/
theorem silence_amended_witness :
    readyState.initialized = true ∧ readyState.kokoro_pipeline ≠ none ∧
    (∀ xs : List ℚ, ((fun ys : List ℚ => [ys.length + 1]) xs : List ℕ) ≠ []) ∧
    (synthesize_speech { librosa := none, encode := fun ys => [ys.length + 1] } readyState
        (Except.ok []) 1).1 = Except.ok [24001] := by
  refine ⟨rfl, by decide, fun xs => by simp, ?_⟩
  have h := (silence_amended { librosa := none, encode := fun ys => [ys.length + 1] }
      readyState rfl (by decide) (fun xs => by simp)).1
  rw [h]
  show (Except.ok [(List.replicate 24000 (0 : ℚ)).length + 1] : Except Err (List ℕ))
    = Except.ok [24001]
  rw [List.length_replicate]

/-- C1: the staging-file invariant fails on the write-failure path. The
inner `finally` that unlinks the temporary file is entered only after
`temp_file.write(audio_data)` has succeeded; if the write raises, the
`NamedTemporaryFile(delete=False)` file was already created and no unlink
runs, so the artifact remains on disk while the call raises the wrapped
`RuntimeError`. On every path where the write succeeds (and on the guard
path, which creates no file) no artifact remains. -/
theorem staging_leak_on_write_failure :
    (transcribe_audio (fun q => q) readyState WriteOutcome.fail
        (Except.ok { text := "", language := none, duration := none, segments := none })).2.1
      = { fileCreated := true, inferenceAttempted := false, fileRemains := true } ∧
    (transcribe_audio (fun q => q) readyState WriteOutcome.fail
        (Except.ok { text := "", language := none, duration := none, segments := none })).1
      = Except.error Err.transcriptionFailed ∧
    ∀ (expf : ℚ → ℚ) (s : SpeechState) (infer : Except Unit WhisperResult),
      (transcribe_audio expf s WriteOutcome.ok infer).2.1.fileRemains = false := by
  refine ⟨rfl, rfl, ?_⟩
  intro expf s infer
  unfold transcribe_audio
  split
  · rfl
  · rcases infer with _ | _ <;> rfl
